import Mathlib

/-!
# Verification of the fuel-sp1 proving-game harness

A shallow embedding of the `fuel-proving-games-sp1` crate
(`src/lib/common.rs`, `src/lib/block_execution_game.rs`,
`src/lib/decompression_game.rs`) together with models of its external
collaborators (the SP1 proving backend, the alloy ABI codec, the
filesystem), and theorems settling the specification's claims about it.

Rust strings are modelled as `List Char`, byte buffers as `List Nat`
(each entry a byte value `< 256`), panics (`unwrap`/`expect`) as `none`
in an `Option`-valued result, and fallible operations as `Except`.
-/

/-- Convert a Lean string literal to the `List Char` model of Rust strings. -/
def chars (s : String) : List Char := s.data

abbrev Str := List Char

/-- Bytes are modelled as `Nat` values; a buffer is well-formed when every
entry is below 256. -/
def BytesWF (bs : List Nat) : Prop := ∀ b ∈ bs, b < 256

instance : DecidablePred BytesWF := fun bs =>
  inferInstanceAs (Decidable (∀ b ∈ bs, b < 256))

/-! ## `ProvingMode` (src/lib/common.rs lines 29-35) -/

/-- `ProvingMode` from `common.rs`: `Plonk`, `Groth16`, and `Core`, with
`#[default]` on `Core`. -/
inductive ProvingMode where
  | Plonk
  | Groth16
  | Core
deriving DecidableEq, Repr

/-- The `#[derive(Default)]` instance of `ProvingMode`: the `#[default]`
attribute sits on the `Core` variant. -/
def ProvingMode.default : ProvingMode := .Core

/-! ## SP1 SDK types (external collaborators, modelled) -/

/-- Model of `sp1_sdk::SP1Stdin`: a staged-input channel holding the slices
written so far. `SP1Stdin::new()` starts empty; `write_slice` appends. -/
structure SP1Stdin where
  buffer : List (List Nat)
deriving DecidableEq, Repr

def SP1Stdin.new : SP1Stdin := ⟨[]⟩

def SP1Stdin.write_slice (s : SP1Stdin) (input : List Nat) : SP1Stdin :=
  ⟨s.buffer ++ [input]⟩

/-- Model of `sp1_sdk::SP1ProofWithPublicValues`: the public-values buffer
(`proof.public_values.as_slice()`) and the raw proof bytes
(`proof.bytes()`). -/
structure SP1ProofWithPublicValues where
  public_values : List Nat
  bytes : List Nat
deriving DecidableEq, Repr

/-- Model of `sp1_sdk::SP1VerifyingKey`: the harness only observes its
`bytes32()` hash rendering (a hex string). -/
structure SP1VerifyingKey where
  bytes32 : Str
deriving DecidableEq, Repr

/-- Model of an SP1 proving key: opaque to the harness. -/
structure SP1ProvingKey where
  keyId : Nat
deriving DecidableEq, Repr

/-- Model of `sp1_sdk::ExecutionReport`: the counts the harness and its
callers observe. -/
structure ExecutionReport where
  total_instruction_count : Nat
  total_syscall_count : Nat
  touched_memory_addresses : Nat
deriving DecidableEq, Repr

/-- The final proof representation requested from the backend: the base
proof, or a Groth16/Plonk succinct wrapping of it. -/
inductive ProofKind where
  | core
  | groth16
  | plonk
deriving DecidableEq, Repr

/-- One observable call into the SP1 backend, used to trace how often the
harness invokes each backend operation within a single harness call. -/
inductive BackendCall where
  | setup (elf : List Nat)
  | proveRun (kind : ProofKind)
  | executeRun (elf : List Nat)
  | verifyRun
deriving DecidableEq, Repr

def BackendCall.isProveRun : BackendCall → Bool
  | .proveRun _ => true
  | _ => false

def BackendCall.isSetup : BackendCall → Bool
  | .setup _ => true
  | _ => false

/-- Model of `sp1_sdk::EnvProver`, the opaque proving backend of §6: it
exposes `setup`, proof generation at a requested representation, trace-only
execution, and verification. Failures surface as descriptive strings. -/
structure EnvProver where
  setup : List Nat → SP1ProvingKey × SP1VerifyingKey
  runProve : SP1ProvingKey → SP1Stdin → ProofKind →
    Except Str SP1ProofWithPublicValues
  runExecute : List Nat → SP1Stdin → Except Str (List Nat × ExecutionReport)
  runVerify : SP1ProofWithPublicValues → SP1VerifyingKey → Except Str Unit

/-- Model of the SP1 SDK's prove builder: `prover.prove(&pk, &stdin)` yields
a builder requesting the base proof; `.groth16()` / `.plonk()` switch the
requested representation; `.run()` performs the backend call. -/
structure ProveBuilder where
  env : EnvProver
  pk : SP1ProvingKey
  stdin : SP1Stdin
  kind : ProofKind

def EnvProver.prove (env : EnvProver) (pk : SP1ProvingKey) (stdin : SP1Stdin) :
    ProveBuilder :=
  ⟨env, pk, stdin, .core⟩

def ProveBuilder.groth16 (b : ProveBuilder) : ProveBuilder :=
  { b with kind := .groth16 }

def ProveBuilder.plonk (b : ProveBuilder) : ProveBuilder :=
  { b with kind := .plonk }

def ProveBuilder.run (b : ProveBuilder) : Except Str SP1ProofWithPublicValues :=
  b.env.runProve b.pk b.stdin b.kind

/-! ## The crate's error type

Modelled from the spec: the typed error enum lives in the crate's `lib.rs`,
which is not under `src/`; its variant names are taken from their uses in
`common.rs` and the §7 error taxonomy (proving, verification, execution,
artifact-export failures, each carrying a diagnostic message). -/

inductive Error where
  | FailedToProveProvingGame (msg : Str)
  | FailedToVerifyProof (msg : Str)
  | FailedToExecuteProvingGame (msg : Str)
  | FailedToCreateSolidityFixture (msg : Str)
deriving DecidableEq, Repr

/-! ## Hex codec (external `hex` crate, modelled) -/

/-- Lowercase hex digit for a value below 16, as produced by
`hex::encode`. -/
def hexDigitChar (n : Nat) : Char :=
  if n < 10 then Char.ofNat (48 + n) else Char.ofNat (87 + n)

/-- Model of `hex::encode`: two lowercase hex digits per byte. -/
def hexEncode (bs : List Nat) : Str :=
  bs.flatMap (fun b => [hexDigitChar (b / 16), hexDigitChar (b % 16)])

/-- Value of a lowercase hex digit, `none` on a non-digit. -/
def hexDigitValue (c : Char) : Option Nat :=
  if 48 ≤ c.toNat ∧ c.toNat ≤ 57 then some (c.toNat - 48)
  else if 97 ≤ c.toNat ∧ c.toNat ≤ 102 then some (c.toNat - 87)
  else none

/-- Decode a lowercase hex string back into bytes. -/
def hexDecode : Str → Option (List Nat)
  | [] => some []
  | [_] => none
  | c1 :: c2 :: rest => do
    let h ← hexDigitValue c1
    let l ← hexDigitValue c2
    let tail ← hexDecode rest
    pure ((16 * h + l) :: tail)

/-! ## ABI codec (external `alloy_sol_types`, modelled)

Both games' `PublicValuesStruct` is a struct of two static 32-byte words
(block-execution: `input_hash`, `block_id`; decompression:
`first_block_height`, `last_block_height`). `abi_decode(data, validate)`
reads the two words, failing when the data is shorter than the 64-byte
layout; with `validate = true` it additionally rejects data that does not
re-encode to the input — in particular any trailing bytes beyond the fixed
layout. With `validate = false` such trailing bytes are silently ignored. -/

def abiDecodeTwoWords (data : List Nat) (validate : Bool) :
    Option (List Nat × List Nat) :=
  if data.length < 64 then none
  else if validate = true ∧ data.length ≠ 64 then none
  else some (data.take 32, (data.drop 32).take 32)

/-! ## `GameConfig` (src/lib/common.rs lines 5-27)

The Rust trait is modelled as a structure of the per-game data: the stable
name, the program binary, the fixture-to-input mapping, and the
public-value decoding into a game-specific Solidity context. Rust's
`get_solidity_context` can panic (its ABI decode is `unwrap`ped), so its
model returns `Option`; `serialize_context` models the
`serde::Serialize` bound used by `create_solidity_fixture`. -/

structure GameConfig (Fixture : Type) (SolidityContext : Type) where
  NAME : Str
  elf : List Nat
  get_fixture_input : Fixture → List Nat
  get_solidity_context : SP1ProofWithPublicValues → SP1VerifyingKey →
    Option SolidityContext
  serialize_context : SolidityContext → Str

/-! ## Filesystem model (external `std::fs` / `std::path`) -/

/-- A Unix path is absolute when it starts with `/`. -/
def isAbsolutePath (p : Str) : Bool := p.head? = some '/'

/-- Model of `std::path::PathBuf::join`: joining an absolute path replaces
the base; otherwise a `/`-separated component is pushed. -/
def pathJoin (base p : Str) : Str :=
  if isAbsolutePath p then p else base ++ chars "/" ++ p

/-- Model of the compile-time `env!("CARGO_MANIFEST_DIR")` constant: the
absolute path of the crate's source directory, fixed at build time. -/
def CARGO_MANIFEST_DIR : Str := chars "/build/fuel-proving-games-sp1"

/-- Overwrite (or create) the entry for `p` in a path-to-content map. -/
def setFile : List (Str × Str) → Str → Str → List (Str × Str)
  | [], p, c => [(p, c)]
  | (q, d) :: rest, p, c =>
    if q = p then (p, c) :: rest else (q, d) :: setFile rest p c

def lookupFile (files : List (Str × Str)) (p : Str) : Option Str :=
  match files.find? (fun e => e.1 = p) with
  | some e => some e.2
  | none => none

/-- Model of the filesystem seen through `std::fs`: the current working
directory (relative paths resolve against it), the file contents, and
environment-determined failure of directory creation and file writes at a
given resolved path. -/
structure FileSystem where
  cwd : Str
  files : List (Str × Str)
  dirFailsAt : Str → Bool
  writeFailsAt : Str → Bool

/-- OS path resolution: absolute paths stand alone, relative paths are
interpreted against the process working directory. -/
def FileSystem.resolve (fs : FileSystem) (p : Str) : Str :=
  if isAbsolutePath p then p else pathJoin fs.cwd p

/-- Model of `std::fs::create_dir_all`: fails with an `io::Error` exactly
when the environment makes directory creation fail at the resolved path. -/
def FileSystem.create_dir_all (fs : FileSystem) (p : Str) :
    Except Str FileSystem :=
  if fs.dirFailsAt (fs.resolve p) then .error (chars "create_dir_all failed")
  else .ok fs

/-- Model of `std::fs::write`: creates or truncates the file at the
resolved path, replacing its content wholesale. -/
def FileSystem.write (fs : FileSystem) (p content : Str) :
    Except Str FileSystem :=
  let rp := fs.resolve p
  if fs.writeFailsAt rp then .error (chars "write failed")
  else .ok { fs with files := setFile fs.files rp content }

/-! ## `GameProver` (src/lib/common.rs lines 37-127) -/

/-- `GameProver` wraps a handle viewable as the SP1 backend (`P:
AsRef<EnvProver>`); the game is a phantom parameter, passed here as an
explicit argument of each method. -/
structure GameProver where
  prover : EnvProver

def GameProver.new (prover : EnvProver) : GameProver := ⟨prover⟩

/-- `GameProver::prove` (common.rs lines 58-84): stage the input into a
fresh `SP1Stdin`, run `setup` on the game's ELF, configure the prove
builder according to `mode`, run it, wrap a backend failure in
`Error::FailedToProveProvingGame`, and return the proof with the verifying
key from this call's setup. The second component records the backend calls
the invocation makes. -/
def GameProver.prove {F C : Type} (self : GameProver) (G : GameConfig F C)
    (input : List Nat) (mode : ProvingMode) :
    Except Error (SP1ProofWithPublicValues × SP1VerifyingKey) ×
      List BackendCall :=
  let stdin := SP1Stdin.new.write_slice input
  let pkvk := self.prover.setup G.elf
  let pk := pkvk.1
  let vk := pkvk.2
  let prover := self.prover.prove pk stdin
  let configured_prover :=
    match mode with
    | ProvingMode.Core => prover
    | ProvingMode.Groth16 => prover.groth16
    | ProvingMode.Plonk => prover.plonk
  let trace := [BackendCall.setup G.elf,
    BackendCall.proveRun configured_prover.kind]
  match configured_prover.run with
  | .error e => (.error (Error.FailedToProveProvingGame e), trace)
  | .ok proof => (.ok (proof, vk), trace)

/-- `GameProver::prove_fixture` (common.rs lines 87-94): map the fixture to
raw input and prove it. -/
def GameProver.prove_fixture {F C : Type} (self : GameProver)
    (G : GameConfig F C) (fixture : F) (mode : ProvingMode) :
    Except Error (SP1ProofWithPublicValues × SP1VerifyingKey) ×
      List BackendCall :=
  let raw_input := G.get_fixture_input fixture
  self.prove G raw_input mode

/-- `GameProver::verify` (common.rs lines 97-106): delegate to the backend,
wrapping a failure in `Error::FailedToVerifyProof`. -/
def GameProver.verify (self : GameProver) (proof : SP1ProofWithPublicValues)
    (vk : SP1VerifyingKey) : Except Error Unit × List BackendCall :=
  let res :=
    match self.prover.runVerify proof vk with
    | .error e => Except.error (Error.FailedToVerifyProof e)
    | .ok u => Except.ok u
  (res, [BackendCall.verifyRun])

/-- `GameProver::create_solidity_fixture` (common.rs lines 109-126):
compute the game's Solidity context (whose inner ABI decode may panic,
modelled `none`), join the output directory onto `CARGO_MANIFEST_DIR`,
create it (mapping failure to `Error::FailedToCreateSolidityFixture`), and
write the pretty-printed JSON serialization to
`<dir>/<NAME>-fixture.json` lowercased — the write's failure is
`.expect`ed, i.e. a panic (`none`), not a typed error. Returns the updated
filesystem on success. -/
def GameProver.create_solidity_fixture {F C : Type} (self : GameProver)
    (G : GameConfig F C) (fs : FileSystem) (proof : SP1ProofWithPublicValues)
    (vk : SP1VerifyingKey) (path : Str) :
    Option (Except Error FileSystem) :=
  match G.get_solidity_context proof vk with
  | none => none
  | some fixture =>
    let fixture_path := pathJoin CARGO_MANIFEST_DIR path
    match fs.create_dir_all fixture_path with
    | .error e => some (.error (Error.FailedToCreateSolidityFixture e))
    | .ok fs1 =>
      match fs1.write
          (pathJoin fixture_path
            ((G.NAME ++ chars "-fixture.json").map Char.toLower))
          (G.serialize_context fixture) with
      | .error _ => none
      | .ok fs2 => some (.ok fs2)

/-! ## `GameExecutor` (src/lib/common.rs lines 129-170) -/

/-- `GameExecutor` wraps a handle viewable as the SP1 backend. -/
structure GameExecutor where
  executor : EnvProver

def GameExecutor.new (executor : EnvProver) : GameExecutor := ⟨executor⟩

/-- `GameExecutor::execute` (common.rs lines 150-163): stage the input into
a fresh `SP1Stdin`, run the backend's trace-only execution on the game's
ELF, wrap a failure in `Error::FailedToExecuteProvingGame`, and return the
execution report. -/
def GameExecutor.execute {F C : Type} (self : GameExecutor)
    (G : GameConfig F C) (input : List Nat) :
    Except Error ExecutionReport × List BackendCall :=
  let stdin := SP1Stdin.new.write_slice input
  let trace := [BackendCall.executeRun G.elf]
  match self.executor.runExecute G.elf stdin with
  | .error e => (.error (Error.FailedToExecuteProvingGame e), trace)
  | .ok res => (.ok res.2, trace)

/-- `GameExecutor::execute_fixture` (common.rs lines 166-169): map the
fixture to raw input and execute it. -/
def GameExecutor.execute_fixture {F C : Type} (self : GameExecutor)
    (G : GameConfig F C) (fixture : F) :
    Except Error ExecutionReport × List BackendCall :=
  let raw_input := G.get_fixture_input fixture
  self.execute G raw_input

/-! ## JSON rendering (external `serde_json`, modelled)

`serde_json::to_string_pretty` on the games' contexts cannot fail (all
fields are strings or byte arrays); its output is modelled as a
deterministic compact JSON rendering of the fields in declaration order
with their `camelCase` names. -/

def jsonQuote : Char := Char.ofNat 34

def jsonBackslash : Char := Char.ofNat 92

def jsonLBrace : Char := Char.ofNat 123

def jsonRBrace : Char := Char.ofNat 125

def jsonEscapeChar (c : Char) : List Char :=
  if c = jsonQuote ∨ c = jsonBackslash then [jsonBackslash, c] else [c]

def jsonOfStr (s : Str) : Str :=
  jsonQuote :: s.flatMap jsonEscapeChar ++ [jsonQuote]

def jsonOfBytes (bs : List Nat) : Str :=
  '[' :: List.intercalate (chars ",") (bs.map (fun b => Nat.toDigits 10 b)) ++ [']']

def jsonObject (fields : List (Str × Str)) : Str :=
  jsonLBrace :: List.intercalate (chars ",")
    (fields.map (fun f => jsonOfStr f.1 ++ chars ":" ++ f.2)) ++ [jsonRBrace]

/-! ## Block execution game (src/lib/block_execution_game.rs) -/

/-- Model of the external compiled ELF blob for the block-execution game
(`include_elf!("fuel-block-execution-game-sp1")`): an opaque byte sequence
whose content the harness never inspects. -/
def FUEL_SP1_ELF_BLOCK_EXECUTION : List Nat := [0x7f, 0x45, 0x4c, 0x46, 1]

/-- Model of the external block-execution fixture identifier (an opaque
enumeration owned by `fuel_zkvm_primitives_test_fixtures`). -/
structure BlockExecutionFixture where
  fixtureId : Nat
deriving DecidableEq, Repr

/-- Modelled from the spec: the external fixture catalog's
`Fixture::get_input_for_fixture` for the block-execution game, an opaque
pure mapping from fixture identifier to raw witness bytes. -/
def blockExecutionFixtureInput (f : BlockExecutionFixture) : List Nat :=
  [f.fixtureId % 256]

/-- `SolidityContext` of `block_execution_game.rs` (lines 16-24): decoded
32-byte words, the vkey digest, and hex renderings of the raw public
values and proof bytes. Serde renames fields to `camelCase`. -/
structure BlockSolidityContext where
  block_id : List Nat
  input_hash : List Nat
  vkey : Str
  public_values : Str
  proof : Str
deriving DecidableEq, Repr

def BlockSolidityContext.toJson (ctx : BlockSolidityContext) : Str :=
  jsonObject
    [(chars "blockId", jsonOfBytes ctx.block_id),
     (chars "inputHash", jsonOfBytes ctx.input_hash),
     (chars "vkey", jsonOfStr ctx.vkey),
     (chars "publicValues", jsonOfStr ctx.public_values),
     (chars "proof", jsonOfStr ctx.proof)]

/-- `BlockExecutionGame::get_solidity_context` (block_execution_game.rs
lines 41-61): ABI-decode the public values with `validate = false`
(`abi_decode(bytes, false)`, the decoded struct's fields being
`input_hash` then `block_id`), `unwrap` the result (panic modelled as
`none`), and build the context with big-endian byte renderings of the
words and `0x`-prefixed hex of the raw buffers. -/
def BlockExecutionGame.get_solidity_context
    (proof : SP1ProofWithPublicValues) (vk : SP1VerifyingKey) :
    Option BlockSolidityContext :=
  let bytes := proof.public_values
  match abiDecodeTwoWords bytes false with
  | none => none
  | some decoded =>
    some { block_id := decoded.2
           input_hash := decoded.1
           vkey := vk.bytes32
           public_values := chars "0x" ++ hexEncode bytes
           proof := chars "0x" ++ hexEncode proof.bytes }

/-- The `GameConfig` instance of the block-execution game
(block_execution_game.rs lines 26-62), with `NAME = "block_execution"`. -/
def BlockExecutionGame : GameConfig BlockExecutionFixture BlockSolidityContext where
  NAME := chars "block_execution"
  elf := FUEL_SP1_ELF_BLOCK_EXECUTION
  get_fixture_input := blockExecutionFixtureInput
  get_solidity_context := BlockExecutionGame.get_solidity_context
  serialize_context := BlockSolidityContext.toJson

/-! ## Decompression game (src/lib/decompression_game.rs) -/

/-- Model of the external compiled ELF blob for the decompression game
(`include_elf!("fuel-decompression-game-sp1")`). -/
def FUEL_SP1_ELF_DECOMPRESSION : List Nat := [0x7f, 0x45, 0x4c, 0x46, 2]

/-- Model of the external decompression fixture identifier. -/
structure DecompressionFixture where
  fixtureId : Nat
deriving DecidableEq, Repr

/-- Modelled from the spec: the external fixture catalog's
`Fixture::get_input_for_fixture` for the decompression game. -/
def decompressionFixtureInput (f : DecompressionFixture) : List Nat :=
  [f.fixtureId % 256, 1]

/-- `SolidityContext` of `decompression_game.rs` (lines 16-24). -/
structure DecompressionSolidityContext where
  first_block_height : List Nat
  last_block_height : List Nat
  vkey : Str
  public_values : Str
  proof : Str
deriving DecidableEq, Repr

def DecompressionSolidityContext.toJson
    (ctx : DecompressionSolidityContext) : Str :=
  jsonObject
    [(chars "firstBlockHeight", jsonOfBytes ctx.first_block_height),
     (chars "lastBlockHeight", jsonOfBytes ctx.last_block_height),
     (chars "vkey", jsonOfStr ctx.vkey),
     (chars "publicValues", jsonOfStr ctx.public_values),
     (chars "proof", jsonOfStr ctx.proof)]

/-- `DecompressionGame::get_solidity_context` (decompression_game.rs lines
41-62): ABI-decode the public values with `validate = false`, `unwrap`
(panic modelled as `none`), and build the context. -/
def DecompressionGame.get_solidity_context
    (proof : SP1ProofWithPublicValues) (vk : SP1VerifyingKey) :
    Option DecompressionSolidityContext :=
  let bytes := proof.public_values
  match abiDecodeTwoWords bytes false with
  | none => none
  | some decoded =>
    some { first_block_height := decoded.1
           last_block_height := decoded.2
           vkey := vk.bytes32
           public_values := chars "0x" ++ hexEncode bytes
           proof := chars "0x" ++ hexEncode proof.bytes }

/-- The `GameConfig` instance of the decompression game
(decompression_game.rs lines 26-63), with `NAME = "decompression"`. -/
def DecompressionGame : GameConfig DecompressionFixture DecompressionSolidityContext where
  NAME := chars "decompression"
  elf := FUEL_SP1_ELF_DECOMPRESSION
  get_fixture_input := decompressionFixtureInput
  get_solidity_context := DecompressionGame.get_solidity_context
  serialize_context := DecompressionSolidityContext.toJson

/-! ## Spec-side definitions for refinement comparisons -/

/-- The spec's §4.3 step 3 wording: the final proof representation
requested from the backend for each mode — `Core` the base proof,
`Groth16`/`Plonk` the corresponding succinct wrapping. -/
def ProvingMode.requestedKind : ProvingMode → ProofKind
  | .Core => .core
  | .Groth16 => .groth16
  | .Plonk => .plonk

/-! ## Concrete backend and filesystem instances for evaluation -/

/-- A concrete verifying key used to evaluate the model. -/
def testVk : SP1VerifyingKey := ⟨chars "0x0011"⟩

/-- A concrete proof whose public-values buffer is exactly the 64-byte
fixed layout. -/
def testProofOk : SP1ProofWithPublicValues :=
  ⟨List.replicate 64 0, [222, 173]⟩

/-- A concrete backend on which every operation succeeds. -/
def testEnv : EnvProver where
  setup := fun e => (⟨e.length⟩, testVk)
  runProve := fun _ _ _ => .ok testProofOk
  runExecute := fun _ _ => .ok ([], ⟨10, 2, 5⟩)
  runVerify := fun _ _ => .ok ()

/-- A concrete backend whose proof generation fails. -/
def testEnvProveFails : EnvProver :=
  { testEnv with runProve := fun _ _ _ => .error (chars "backend failure") }

/-- A concrete filesystem on which every operation succeeds. -/
def testFS : FileSystem :=
  ⟨chars "/home/user", [], fun _ => false, fun _ => false⟩

/-- A filesystem on which directory creation fails everywhere. -/
def testFSDirFails : FileSystem :=
  { testFS with dirFailsAt := fun _ => true }

/-- A filesystem on which file writes fail everywhere. -/
def testFSWriteFails : FileSystem :=
  { testFS with writeFailsAt := fun _ => true }

/-- The Solidity context the block-execution game computes for
`testProofOk` and `testVk`. -/
def testCtxBlock : BlockSolidityContext where
  block_id := List.replicate 32 0
  input_hash := List.replicate 32 0
  vkey := chars "0x0011"
  public_values := chars "0x" ++ hexEncode (List.replicate 64 0)
  proof := chars "0x" ++ hexEncode [222, 173]

/-- The Solidity context the decompression game computes for `testProofOk`
and `testVk`. -/
def testCtxDecompression : DecompressionSolidityContext where
  first_block_height := List.replicate 32 0
  last_block_height := List.replicate 32 0
  vkey := chars "0x0011"
  public_values := chars "0x" ++ hexEncode (List.replicate 64 0)
  proof := chars "0x" ++ hexEncode [222, 173]

/-! ## Derived path shorthands -/

/-- The directory `create_solidity_fixture` writes into:
`CARGO_MANIFEST_DIR` joined with the caller's output-directory string. -/
def fixtureDirPath (outdir : Str) : Str := pathJoin CARGO_MANIFEST_DIR outdir

/-- The full artifact path `create_solidity_fixture` writes:
`<fixtureDirPath>/<NAME>-fixture.json`, filename lowercased. -/
def fixtureFilePath {F C : Type} (G : GameConfig F C) (outdir : Str) : Str :=
  pathJoin (fixtureDirPath outdir) ((G.NAME ++ chars "-fixture.json").map Char.toLower)

/-- The CLI's default output directory string. -/
def contractsPath : Str := chars "contracts"

/-- The filesystem state after a successful
`create_solidity_fixture` call on `testFS` for the block-execution game. -/
def c8fs : FileSystem :=
  { testFS with
    files := setFile testFS.files
      (testFS.resolve (fixtureFilePath BlockExecutionGame contractsPath))
      (BlockExecutionGame.serialize_context testCtxBlock) }

/-! ## Shared lemmas -/

theorem hexDigitValue_hexDigitChar : ∀ n < 16,
    hexDigitValue (hexDigitChar n) = some n := by decide

theorem hexDecode_hexEncode {bs : List Nat} (h : BytesWF bs) :
    hexDecode (hexEncode bs) = some bs := by
  induction bs with
  | nil => rfl
  | cons b rest ih =>
    have hb : b < 256 := h b (List.mem_cons_self b rest)
    have hrest : BytesWF rest := fun x hx => h x (List.mem_cons_of_mem b hx)
    have h1 : b / 16 < 16 := Nat.div_lt_of_lt_mul (by omega)
    have h2 : b % 16 < 16 := Nat.mod_lt b (by omega)
    have henc : hexEncode (b :: rest) =
        hexDigitChar (b / 16) :: hexDigitChar (b % 16) :: hexEncode rest := by
      simp [hexEncode]
    rw [henc]
    simp only [hexDecode, hexDigitValue_hexDigitChar _ h1,
      hexDigitValue_hexDigitChar _ h2, ih hrest, Option.some_bind]
    simp [Nat.div_add_mod]

theorem lookupFile_setFile (files : List (Str × Str)) (p c : Str) :
    lookupFile (setFile files p c) p = some c := by
  induction files with
  | nil => simp [setFile, lookupFile, List.find?]
  | cons e rest ih =>
    by_cases h : e.1 = p
    · simp [setFile, h, lookupFile, List.find?]
    · simp only [setFile]
      rw [if_neg h]
      simpa [lookupFile, List.find?, h] using ih

/-- The lenient two-word ABI decode succeeds exactly on buffers of at
least 64 bytes. -/
theorem abiDecodeTwoWords_lenient (data : List Nat) :
    (abiDecodeTwoWords data false).isSome ↔ 64 ≤ data.length := by
  simp only [abiDecodeTwoWords]
  split
  · simp only [Option.isSome_none, Bool.false_eq_true, false_iff]
    omega
  · split
    · simp_all
    · simp only [Option.isSome_some, true_iff]
      omega

/-- Anatomy of a successful `create_solidity_fixture` call: the context
decode succeeded, the working directory is untouched, and the files map
gains exactly the serialized context at the resolved
`<CARGO_MANIFEST_DIR>/<path>/<NAME>-fixture.json` path. -/
theorem create_solidity_fixture_ok {F C : Type} (pr : GameProver)
    (G : GameConfig F C) (fs : FileSystem) (proof : SP1ProofWithPublicValues)
    (vk : SP1VerifyingKey) (outdir : Str) (fs' : FileSystem)
    (h : pr.create_solidity_fixture G fs proof vk outdir = some (.ok fs')) :
    ∃ ctx, G.get_solidity_context proof vk = some ctx ∧
      fs'.cwd = fs.cwd ∧
      fs'.files = setFile fs.files
        (fs.resolve (pathJoin (pathJoin CARGO_MANIFEST_DIR outdir)
          ((G.NAME ++ chars "-fixture.json").map Char.toLower)))
        (G.serialize_context ctx) := by
  unfold GameProver.create_solidity_fixture FileSystem.create_dir_all
    FileSystem.write at h
  cases hctx : G.get_solidity_context proof vk with
  | none =>
    rw [hctx] at h
    simp at h
  | some ctx =>
    rw [hctx] at h
    by_cases hdir :
        fs.dirFailsAt (fs.resolve (pathJoin CARGO_MANIFEST_DIR outdir)) = true
    · simp only [hdir, if_true] at h
      simp at h
    · simp only [hdir, Bool.false_eq_true, if_false] at h
      by_cases hw : fs.writeFailsAt (fs.resolve
          (pathJoin (pathJoin CARGO_MANIFEST_DIR outdir)
            ((G.NAME ++ chars "-fixture.json").map Char.toLower))) = true
      · simp only [hw, if_true] at h
        simp at h
      · simp only [hw, Bool.false_eq_true, if_false] at h
        have h2 := Except.ok.inj (Option.some.inj h)
        subst h2
        exact ⟨ctx, rfl, rfl, rfl⟩

theorem isAbsolutePath_iff (p : Str) :
    isAbsolutePath p = true ↔ p.head? = some '/' := by
  simp [isAbsolutePath]

theorem isAbsolutePath_append (a b : Str) (h : isAbsolutePath a = true) :
    isAbsolutePath (a ++ b) = true := by
  rw [isAbsolutePath_iff] at *
  cases a with
  | nil => simp at h
  | cons x xs => simpa using h

theorem isAbsolutePath_pathJoin (a b : Str) (h : isAbsolutePath a = true) :
    isAbsolutePath (pathJoin a b) = true := by
  unfold pathJoin
  split
  · assumption
  · exact isAbsolutePath_append _ _ (isAbsolutePath_append _ _ h)

theorem isAbsolutePath_manifest : isAbsolutePath CARGO_MANIFEST_DIR = true := by
  decide

theorem resolve_absolute (fs : FileSystem) (p : Str)
    (h : isAbsolutePath p = true) : fs.resolve p = p := by
  unfold FileSystem.resolve
  rw [if_pos h]

theorem resolve_cwd (fs : FileSystem) (c p : Str) (h : isAbsolutePath p = true) :
    FileSystem.resolve { fs with cwd := c } p = fs.resolve p := by
  unfold FileSystem.resolve
  rw [if_pos h, if_pos h]

theorem except_result_pair (X : Except Str SP1ProofWithPublicValues)
    (vk : SP1VerifyingKey) (trace : List BackendCall) :
    (match X with
     | .error e => (Except.error (Error.FailedToProveProvingGame e), trace)
     | .ok p => (Except.ok (p, vk), trace)) =
    ((match X with
      | .error e => Except.error (Error.FailedToProveProvingGame e)
      | .ok p => Except.ok (p, vk)), trace) := by
  cases X <;> rfl

/-- Unfolding of `GameProver.prove`: one `setup` call on the game's ELF,
one backend prove request at the representation selected by `mode`, the
error wrapped in `Error.FailedToProveProvingGame`, and the verifying key
of this call's setup returned alongside the proof. -/
theorem GameProver.prove_eq {F C : Type} (pr : GameProver) (G : GameConfig F C)
    (input : List Nat) (mode : ProvingMode) :
    pr.prove G input mode =
      ((match pr.prover.runProve (pr.prover.setup G.elf).1
            (SP1Stdin.new.write_slice input) mode.requestedKind with
        | .error e => Except.error (Error.FailedToProveProvingGame e)
        | .ok proof => Except.ok (proof, (pr.prover.setup G.elf).2)),
       [BackendCall.setup G.elf, BackendCall.proveRun mode.requestedKind]) := by
  cases mode <;>
    simp only [GameProver.prove, EnvProver.prove, ProveBuilder.run,
      ProveBuilder.groth16, ProveBuilder.plonk, ProvingMode.requestedKind] <;>
    exact except_result_pair _ _ _

/-! ## Claim theorems -/

/-- C9: `ProvingMode` is a closed set with exactly the three values `Core`,
`Groth16`, and `Plonk`, and its derived default value is `Core`. -/
theorem proving_mode_closed_default :
    (∀ m : ProvingMode, m = ProvingMode.Core ∨ m = ProvingMode.Groth16 ∨
      m = ProvingMode.Plonk) ∧
    ProvingMode.default = ProvingMode.Core := by
  constructor
  · intro m
    cases m <;> simp
  · rfl

/-- C5: for every fixture `f`, `execute_fixture f` is exactly
`execute (get_fixture_input f)` — the same result and the same backend
interaction, hence the same instruction, syscall, and touched-memory
counts in the returned execution report. -/
theorem execute_fixture_composition {F C : Type} (ex : GameExecutor)
    (G : GameConfig F C) (f : F) :
    ex.execute_fixture G f = ex.execute G (G.get_fixture_input f) := rfl

/-- C6: for every fixture `f` and mode, `prove_fixture f mode` is exactly
the composition of `prove` with the game's fixture-to-input mapping. -/
theorem prove_fixture_composition {F C : Type} (pr : GameProver)
    (G : GameConfig F C) (f : F) (mode : ProvingMode) :
    pr.prove_fixture G f mode = pr.prove G (G.get_fixture_input f) mode := rfl

/-- C2: `GameProver::prove` stages the input into a fresh stdin channel
(holding exactly that one slice), invokes backend `setup` on the game's
ELF within the same call, requests the base proof for `Core` and the
Groth16/Plonk succinct wrapping for the other modes, and on success
returns the proof together with the verifying key produced by that very
setup call; the backend-call trace shows setup performed on each call. -/
theorem prove_pipeline_spec {F C : Type} (pr : GameProver) (G : GameConfig F C)
    (input : List Nat) (mode : ProvingMode) :
    pr.prove G input mode =
      ((match pr.prover.runProve (pr.prover.setup G.elf).1
            (SP1Stdin.new.write_slice input) mode.requestedKind with
        | .error e => Except.error (Error.FailedToProveProvingGame e)
        | .ok proof => Except.ok (proof, (pr.prover.setup G.elf).2)),
       [BackendCall.setup G.elf, BackendCall.proveRun mode.requestedKind]) ∧
    (SP1Stdin.new.write_slice input).buffer = [input] :=
  ⟨GameProver.prove_eq pr G input mode, rfl⟩

/-- C4: a backend proving failure surfaces as
`Error.FailedToProveProvingGame` wrapping the backend's diagnostic; that
error is distinguishable from the verification, execution and
artifact-export errors; and each `prove` call performs exactly one backend
prove attempt and one setup — no retry. -/
theorem prove_error_wrapping_once :
    (∀ {F C : Type} (pr : GameProver) (G : GameConfig F C) (input : List Nat)
        (mode : ProvingMode) (e : Str),
      pr.prover.runProve (pr.prover.setup G.elf).1
          (SP1Stdin.new.write_slice input) mode.requestedKind =
        Except.error e →
      (pr.prove G input mode).1 =
        Except.error (Error.FailedToProveProvingGame e)) ∧
    (∀ s t : Str,
      Error.FailedToProveProvingGame s ≠ Error.FailedToVerifyProof t ∧
      Error.FailedToProveProvingGame s ≠ Error.FailedToExecuteProvingGame t ∧
      Error.FailedToProveProvingGame s ≠ Error.FailedToCreateSolidityFixture t) ∧
    (∀ {F C : Type} (pr : GameProver) (G : GameConfig F C) (input : List Nat)
        (mode : ProvingMode),
      ((pr.prove G input mode).2.countP BackendCall.isProveRun) = 1 ∧
      ((pr.prove G input mode).2.countP BackendCall.isSetup) = 1) := by
  refine ⟨?_, ?_, ?_⟩
  · intro F C pr G input mode e h
    rw [GameProver.prove_eq, h]
  · intro s t
    refine ⟨?_, ?_, ?_⟩ <;> intro h <;> exact Error.noConfusion h
  · intro F C pr G input mode
    rw [GameProver.prove_eq]
    constructor <;> rfl

/-- C4 witness: on a concrete backend whose prove call fails with
diagnostic "backend failure", `prove` returns exactly the wrapped
proving error. -/
theorem prove_error_wrapping_once_witness :
    ((GameProver.new testEnvProveFails).prove BlockExecutionGame [7]
        ProvingMode.Groth16).1 =
      Except.error (Error.FailedToProveProvingGame (chars "backend failure")) :=
  prove_error_wrapping_once.1 (GameProver.new testEnvProveFails)
    BlockExecutionGame [7] ProvingMode.Groth16 (chars "backend failure") rfl

/-- C1 counterexample: a 65-byte public-values buffer is malformed with
respect to the fixed 64-byte layout — strict (validating) ABI decoding
rejects it — yet both games' `get_solidity_context` accept it without
failing, silently ignoring the trailing byte: the decode is performed in
lenient mode (`abi_decode(bytes, false)`), not strict mode. -/
theorem strict_decode_counterexample :
    abiDecodeTwoWords (List.replicate 65 0) true = none ∧
    (BlockExecutionGame.get_solidity_context
      ⟨List.replicate 65 0, []⟩ testVk).isSome = true ∧
    (DecompressionGame.get_solidity_context
      ⟨List.replicate 65 0, []⟩ testVk).isSome = true := by
  refine ⟨by decide, rfl, rfl⟩

/-- C1 (amended): both games' `get_solidity_context` decode the public
values in lenient (non-validating) mode: the call fails loudly (the
`unwrap` panics, modelled `none`) exactly when the buffer is shorter than
the 64-byte fixed layout; any buffer of at least 64 bytes is accepted,
with bytes beyond the fixed layout silently ignored. -/
theorem solidity_context_decode_lenient (proof : SP1ProofWithPublicValues)
    (vk : SP1VerifyingKey) :
    ((BlockExecutionGame.get_solidity_context proof vk).isSome ↔
      64 ≤ proof.public_values.length) ∧
    ((DecompressionGame.get_solidity_context proof vk).isSome ↔
      64 ≤ proof.public_values.length) := by
  constructor
  · unfold BlockExecutionGame.get_solidity_context
    cases habi : abiDecodeTwoWords proof.public_values false with
    | none =>
      have h2 := abiDecodeTwoWords_lenient proof.public_values
      rw [habi] at h2
      simp only [Option.isSome_none, Bool.false_eq_true, false_iff] at h2
      simp [habi, h2]
    | some d =>
      have h2 := abiDecodeTwoWords_lenient proof.public_values
      rw [habi] at h2
      simp only [Option.isSome_some, true_iff] at h2
      simp [habi, h2]
  · unfold DecompressionGame.get_solidity_context
    cases habi : abiDecodeTwoWords proof.public_values false with
    | none =>
      have h2 := abiDecodeTwoWords_lenient proof.public_values
      rw [habi] at h2
      simp only [Option.isSome_none, Bool.false_eq_true, false_iff] at h2
      simp [habi, h2]
    | some d =>
      have h2 := abiDecodeTwoWords_lenient proof.public_values
      rw [habi] at h2
      simp only [Option.isSome_some, true_iff] at h2
      simp [habi, h2]

/-- C7: decoding the hex of a `SolidityContext`'s `publicValues` field
(after stripping the `0x` prefix) recovers exactly the proof's original
public-values buffer, and the `proof` field likewise recovers the original
proof bytes, for both games. -/
theorem solidity_context_hex_roundtrip (proof : SP1ProofWithPublicValues)
    (vk : SP1VerifyingKey) (ctxB : BlockSolidityContext)
    (ctxD : DecompressionSolidityContext)
    (hpv : BytesWF proof.public_values) (hpb : BytesWF proof.bytes) :
    (BlockExecutionGame.get_solidity_context proof vk = some ctxB →
      hexDecode (ctxB.public_values.drop 2) = some proof.public_values ∧
      hexDecode (ctxB.proof.drop 2) = some proof.bytes) ∧
    (DecompressionGame.get_solidity_context proof vk = some ctxD →
      hexDecode (ctxD.public_values.drop 2) = some proof.public_values ∧
      hexDecode (ctxD.proof.drop 2) = some proof.bytes) := by
  constructor
  · intro h
    unfold BlockExecutionGame.get_solidity_context at h
    cases habi : abiDecodeTwoWords proof.public_values false with
    | none => simp [habi] at h
    | some d =>
      simp only [habi, Option.some.injEq] at h
      subst h
      constructor
      · show hexDecode ((chars "0x" ++ hexEncode proof.public_values).drop 2) = _
        simp [chars, hexDecode_hexEncode hpv]
      · show hexDecode ((chars "0x" ++ hexEncode proof.bytes).drop 2) = _
        simp [chars, hexDecode_hexEncode hpb]
  · intro h
    unfold DecompressionGame.get_solidity_context at h
    cases habi : abiDecodeTwoWords proof.public_values false with
    | none => simp [habi] at h
    | some d =>
      simp only [habi, Option.some.injEq] at h
      subst h
      constructor
      · show hexDecode ((chars "0x" ++ hexEncode proof.public_values).drop 2) = _
        simp [chars, hexDecode_hexEncode hpv]
      · show hexDecode ((chars "0x" ++ hexEncode proof.bytes).drop 2) = _
        simp [chars, hexDecode_hexEncode hpb]

/-- C7 witness: concrete round trip for the block-execution context of
`testProofOk` and `testVk`. -/
theorem solidity_context_hex_roundtrip_witness :
    hexDecode (testCtxBlock.public_values.drop 2) =
      some testProofOk.public_values ∧
    hexDecode (testCtxBlock.proof.drop 2) = some testProofOk.bytes :=
  (solidity_context_hex_roundtrip testProofOk testVk testCtxBlock
    testCtxDecompression (by decide) (by decide)).1 rfl

/-- C3 counterexample: on a filesystem where the file write fails (and
directory creation succeeds), `create_solidity_fixture` panics — the
write's error is `.expect`ed away (modelled `none`) — instead of returning
a typed filesystem error. -/
theorem write_failure_panics_counterexample :
    (GameProver.new testEnv).create_solidity_fixture BlockExecutionGame
      testFSWriteFails testProofOk testVk contractsPath = none := rfl

/-- C3 (amended): a directory-creation failure yields the typed error
`Error.FailedToCreateSolidityFixture`; a file-write failure panics (the
error is asserted away, modelled `none`), not a typed error; and on
success the JSON-serialized Solidity context is written at the fixture
path, overwriting any existing file there. -/
theorem create_solidity_fixture_error_behavior {F C : Type}
    (pr : GameProver) (G : GameConfig F C) (fs : FileSystem)
    (proof : SP1ProofWithPublicValues) (vk : SP1VerifyingKey) (outdir : Str)
    (ctx : C) (hctx : G.get_solidity_context proof vk = some ctx) :
    (fs.dirFailsAt (fs.resolve (fixtureDirPath outdir)) = true →
      pr.create_solidity_fixture G fs proof vk outdir =
        some (Except.error (Error.FailedToCreateSolidityFixture
          (chars "create_dir_all failed")))) ∧
    (fs.dirFailsAt (fs.resolve (fixtureDirPath outdir)) = false →
      fs.writeFailsAt (fs.resolve (fixtureFilePath G outdir)) = true →
      pr.create_solidity_fixture G fs proof vk outdir = none) ∧
    (fs.dirFailsAt (fs.resolve (fixtureDirPath outdir)) = false →
      fs.writeFailsAt (fs.resolve (fixtureFilePath G outdir)) = false →
      pr.create_solidity_fixture G fs proof vk outdir =
        some (Except.ok { fs with
          files := setFile fs.files (fs.resolve (fixtureFilePath G outdir))
            (G.serialize_context ctx) }) ∧
      lookupFile
        (setFile fs.files (fs.resolve (fixtureFilePath G outdir))
          (G.serialize_context ctx))
        (fs.resolve (fixtureFilePath G outdir)) =
        some (G.serialize_context ctx)) := by
  refine ⟨?_, ?_, ?_⟩
  · intro hdir
    simp only [fixtureDirPath] at hdir
    unfold GameProver.create_solidity_fixture FileSystem.create_dir_all
    simp [hctx, hdir]
  · intro hdir hw
    simp only [fixtureDirPath, fixtureFilePath, List.map_append] at hdir hw
    unfold GameProver.create_solidity_fixture FileSystem.create_dir_all
      FileSystem.write
    simp [hctx, hdir, hw]
  · intro hdir hw
    refine ⟨?_, lookupFile_setFile _ _ _⟩
    simp only [fixtureDirPath, fixtureFilePath, List.map_append] at hdir hw
    unfold GameProver.create_solidity_fixture FileSystem.create_dir_all
      FileSystem.write
    simp [hctx, hdir, hw, fixtureDirPath, fixtureFilePath]

/-- C3 witness: on a filesystem where directory creation fails,
`create_solidity_fixture` returns the typed artifact-export error. -/
theorem create_solidity_fixture_error_behavior_witness :
    (GameProver.new testEnv).create_solidity_fixture BlockExecutionGame
      testFSDirFails testProofOk testVk contractsPath =
      some (Except.error (Error.FailedToCreateSolidityFixture
        (chars "create_dir_all failed"))) :=
  (create_solidity_fixture_error_behavior (GameProver.new testEnv)
    BlockExecutionGame testFSDirFails testProofOk testVk contractsPath
    testCtxBlock rfl).1 rfl

/-- C8: every successful `create_solidity_fixture` call writes exactly one
artifact, at `<resolved output directory>/<NAME>-fixture.json` with the
game name lowercased unchanged; concretely the filename component is
`block_execution-fixture.json` for the block-execution game and
`decompression-fixture.json` for the decompression game. -/
theorem fixture_artifact_filename :
    (∀ {F C : Type} (pr : GameProver) (G : GameConfig F C) (fs : FileSystem)
        (proof : SP1ProofWithPublicValues) (vk : SP1VerifyingKey)
        (outdir : Str) (fs' : FileSystem),
      pr.create_solidity_fixture G fs proof vk outdir =
        some (Except.ok fs') →
      ∃ content, fs'.files =
        setFile fs.files (fs.resolve (fixtureFilePath G outdir)) content) ∧
    (BlockExecutionGame.NAME ++ chars "-fixture.json").map Char.toLower =
      chars "block_execution-fixture.json" ∧
    (DecompressionGame.NAME ++ chars "-fixture.json").map Char.toLower =
      chars "decompression-fixture.json" := by
  refine ⟨?_, by decide, by decide⟩
  intro F C pr G fs proof vk outdir fs' h
  obtain ⟨ctx, -, -, hfiles⟩ :=
    create_solidity_fixture_ok pr G fs proof vk outdir fs' h
  exact ⟨G.serialize_context ctx, by
    rw [hfiles]
    simp [fixtureFilePath, fixtureDirPath]⟩

/-- C8 witness: the concrete successful call on `testFS` for the
block-execution game updates the files map at the fixture path. -/
theorem fixture_artifact_filename_witness :
    ∃ content, c8fs.files =
      setFile testFS.files
        (testFS.resolve (fixtureFilePath BlockExecutionGame contractsPath))
        content :=
  fixture_artifact_filename.1 (GameProver.new testEnv) BlockExecutionGame
    testFS testProofOk testVk contractsPath c8fs rfl

/-- Branch behavior of `create_solidity_fixture` when the context decode
succeeds, split by which filesystem operation fails. -/
theorem create_solidity_fixture_branches {F C : Type}
    (pr : GameProver) (G : GameConfig F C) (fs : FileSystem)
    (proof : SP1ProofWithPublicValues) (vk : SP1VerifyingKey) (outdir : Str)
    (ctx : C) (hctx : G.get_solidity_context proof vk = some ctx) :
    (fs.dirFailsAt (fs.resolve (fixtureDirPath outdir)) = true →
      pr.create_solidity_fixture G fs proof vk outdir =
        some (Except.error (Error.FailedToCreateSolidityFixture
          (chars "create_dir_all failed")))) ∧
    (fs.dirFailsAt (fs.resolve (fixtureDirPath outdir)) = false →
      fs.writeFailsAt (fs.resolve (fixtureFilePath G outdir)) = true →
      pr.create_solidity_fixture G fs proof vk outdir = none) ∧
    (fs.dirFailsAt (fs.resolve (fixtureDirPath outdir)) = false →
      fs.writeFailsAt (fs.resolve (fixtureFilePath G outdir)) = false →
      pr.create_solidity_fixture G fs proof vk outdir =
        some (Except.ok { fs with
          files := setFile fs.files (fs.resolve (fixtureFilePath G outdir))
            (G.serialize_context ctx) })) := by
  refine ⟨?_, ?_, ?_⟩
  · intro hdir
    simp only [fixtureDirPath] at hdir
    unfold GameProver.create_solidity_fixture FileSystem.create_dir_all
    simp [hctx, hdir]
  · intro hdir hw
    simp only [fixtureDirPath, fixtureFilePath, List.map_append] at hdir hw
    unfold GameProver.create_solidity_fixture FileSystem.create_dir_all
      FileSystem.write
    simp [hctx, hdir, hw]
  · intro hdir hw
    simp only [fixtureDirPath, fixtureFilePath, List.map_append] at hdir hw
    unfold GameProver.create_solidity_fixture FileSystem.create_dir_all
      FileSystem.write
    simp [hctx, hdir, hw, fixtureDirPath, fixtureFilePath]

/-- C10: the output path is resolved by joining the caller's directory
string onto the compile-time `CARGO_MANIFEST_DIR`: for a relative output
directory (and the games' relative filenames) the artifact lands at
`<CARGO_MANIFEST_DIR>/<outdir>/<NAME>-fixture.json`; and the process
working directory plays no part — changing it changes nothing but the
recorded `cwd` of the resulting state. -/
theorem fixture_path_manifest_relative :
    (∀ {F C : Type} (pr : GameProver) (G : GameConfig F C) (fs : FileSystem)
        (proof : SP1ProofWithPublicValues) (vk : SP1VerifyingKey)
        (outdir : Str) (fs' : FileSystem),
      isAbsolutePath outdir = false →
      isAbsolutePath ((G.NAME ++ chars "-fixture.json").map Char.toLower) =
        false →
      pr.create_solidity_fixture G fs proof vk outdir =
        some (Except.ok fs') →
      ∃ content, fs'.files = setFile fs.files
        (CARGO_MANIFEST_DIR ++ chars "/" ++ outdir ++ chars "/" ++
          ((G.NAME ++ chars "-fixture.json").map Char.toLower)) content) ∧
    (∀ {F C : Type} (pr : GameProver) (G : GameConfig F C) (fs : FileSystem)
        (proof : SP1ProofWithPublicValues) (vk : SP1VerifyingKey)
        (outdir : Str) (c : Str),
      pr.create_solidity_fixture G { fs with cwd := c } proof vk outdir =
        (pr.create_solidity_fixture G fs proof vk outdir).map
          (Except.map (fun fs2 => { fs2 with cwd := c }))) := by
  constructor
  · intro F C pr G fs proof vk outdir fs' houtdir hname h
    obtain ⟨ctx, -, -, hfiles⟩ :=
      create_solidity_fixture_ok pr G fs proof vk outdir fs' h
    refine ⟨G.serialize_context ctx, ?_⟩
    have habs : isAbsolutePath (pathJoin CARGO_MANIFEST_DIR outdir) = true :=
      isAbsolutePath_pathJoin _ _ isAbsolutePath_manifest
    have hname' : ¬ isAbsolutePath
        ((G.NAME ++ chars "-fixture.json").map Char.toLower) = true := by
      rw [hname]
      exact Bool.false_ne_true
    have houtdir' : ¬ isAbsolutePath outdir = true := by
      rw [houtdir]
      exact Bool.false_ne_true
    rw [hfiles, resolve_absolute _ _ (isAbsolutePath_pathJoin _ _ habs)]
    unfold pathJoin
    rw [if_neg hname', if_neg houtdir']
  · intro F C pr G fs proof vk outdir c
    cases hctx : G.get_solidity_context proof vk with
    | none =>
      unfold GameProver.create_solidity_fixture
      rw [hctx]
      rfl
    | some ctx =>
      have habs1 : isAbsolutePath (fixtureDirPath outdir) = true :=
        isAbsolutePath_pathJoin _ _ isAbsolutePath_manifest
      have habs2 : isAbsolutePath (fixtureFilePath G outdir) = true :=
        isAbsolutePath_pathJoin _ _ habs1
      have hres1 : FileSystem.resolve { fs with cwd := c }
          (fixtureDirPath outdir) = fs.resolve (fixtureDirPath outdir) :=
        resolve_cwd fs c _ habs1
      have hres2 : FileSystem.resolve { fs with cwd := c }
          (fixtureFilePath G outdir) = fs.resolve (fixtureFilePath G outdir) :=
        resolve_cwd fs c _ habs2
      have B1 := create_solidity_fixture_branches pr G { fs with cwd := c }
        proof vk outdir ctx hctx
      have B2 := create_solidity_fixture_branches pr G fs proof vk outdir
        ctx hctx
      by_cases hdir : fs.dirFailsAt (fs.resolve (fixtureDirPath outdir)) = true
      · rw [B1.1 (by rw [hres1]; exact hdir), B2.1 hdir]
        rfl
      · have hdirf : fs.dirFailsAt (fs.resolve (fixtureDirPath outdir)) =
            false := Bool.eq_false_iff.mpr hdir
        by_cases hw : fs.writeFailsAt (fs.resolve (fixtureFilePath G outdir)) =
            true
        · rw [B1.2.1 (by rw [hres1]; exact hdirf) (by rw [hres2]; exact hw),
            B2.2.1 hdirf hw]
          rfl
        · have hwf : fs.writeFailsAt (fs.resolve (fixtureFilePath G outdir)) =
              false := Bool.eq_false_iff.mpr hw
          rw [B1.2.2 (by rw [hres1]; exact hdirf) (by rw [hres2]; exact hwf),
            B2.2.2 hdirf hwf, hres2]
          rfl

/-- C10 witness: for the concrete call on `testFS` with the relative
directory "contracts", the artifact path is the manifest directory
followed by the output directory and the lowercased filename. -/
theorem fixture_path_manifest_relative_witness :
    ∃ content, c8fs.files = setFile testFS.files
      (CARGO_MANIFEST_DIR ++ chars "/" ++ contractsPath ++ chars "/" ++
        ((BlockExecutionGame.NAME ++ chars "-fixture.json").map Char.toLower))
      content :=
  fixture_path_manifest_relative.1 (GameProver.new testEnv)
    BlockExecutionGame testFS testProofOk testVk contractsPath c8fs
    (by decide) (by decide) rfl
